import Mathlib

/-!
Verification of the book-retrieval engine and agent control loop of the
ai-librarian-avatar repository, shallowly embedded in Lean 4.

The embedding follows `backend/db/repository.py` (BookRepository),
`backend/agents/tools/*.py` (tool wrappers) and `backend/agents/agent.py`
(LibreraAgent control loop).

Modelling conventions:
- The SQLite `books` table is a `List Book` in rowid/storage order; the
  primary-key invariant (distinct, positive ids) appears as an explicit
  hypothesis where a proof needs it.
- The sqlite-vss index (`vss_books`) is abstracted as a function
  `ranking : String → List Nat` giving, for each encoded query text, the
  rowids ordered by ascending embedding distance; `vss_search ... LIMIT k`
  is `(ranking q).take k`.  The sentence-transformer `encode` is folded
  into this abstraction (it is deterministic per input text).
- SQL `x LIKE '%s%'` (and SQLAlchemy `ilike`) is modelled as ASCII
  case-insensitive literal substring containment; wildcard metacharacters
  inside `s` are not modelled (all inputs are treated as literal text),
  matching SQLite's default ASCII-only case folding.
- The genre-inference LLM is an oracle `Option (String → String)` applied
  to the exact prompt the code builds; `none` models `llm_model=None`.
- Python truthiness of optional strings (`None` and `""` falsy) and of the
  integer `ref_book_id` (`None` and `0` falsy) is modelled explicitly.
- Operations that can raise (`recommend_by_author` indexing
  `author_query.split()[0]`, `search_by_criteria` building an empty SQL
  conjunction) return `Option`, `none` standing for the raised exception.
-/

/-- ASCII-only lower casing, as done by SQLite LOWER/LIKE and NOCASE. -/
def lowerAscii (s : String) : String := ⟨s.data.map Char.toLower⟩

/-- Python string truthiness test (`not s` for a str). -/
def strEmpty (s : String) : Bool := s.data.isEmpty

/-- Does `pat` occur at the start of `s`? -/
def listPre : List Char → List Char → Bool
  | [], _ => true
  | _ :: _, [] => false
  | a :: as, b :: bs => a == b && listPre as bs

/-- Does `pat` occur somewhere inside `s`? -/
def listSub (pat : List Char) : List Char → Bool
  | [] => listPre pat []
  | c :: rest => listPre pat (c :: rest) || listSub pat rest

/-- Case-sensitive substring test (Python `pat in s`). -/
def containsStr (s pat : String) : Bool := listSub pat.toList s.toList

/-- SQL `s LIKE '%pat%'` / SQLAlchemy `ilike`: ASCII case-insensitive
substring containment, `pat` taken literally. -/
def likeContains (s pat : String) : Bool :=
  containsStr (lowerAscii s) (lowerAscii pat)

/-- Worker for `pySplitWs`: accumulates the current word (reversed). -/
def splitWsGo : List Char → List Char → List String
  | [], acc => if acc.isEmpty then [] else [String.mk acc.reverse]
  | c :: cs, acc =>
    if c.isWhitespace then
      if acc.isEmpty then splitWsGo cs []
      else String.mk acc.reverse :: splitWsGo cs []
    else splitWsGo cs (c :: acc)

/-- Python `str.split()` with no argument: split on whitespace runs,
dropping empty pieces. -/
def pySplitWs (s : String) : List String := splitWsGo s.data []

/-- Worker for comma splitting (Python `s.split(',')`): every separator
produces a piece, so the empty string splits to `[""]`. -/
def splitCommaGo : List Char → List Char → List (List Char)
  | [], acc => [acc.reverse]
  | c :: cs, acc =>
    if c == ',' then acc.reverse :: splitCommaGo cs []
    else splitCommaGo cs (c :: acc)

/-- Drop leading whitespace. -/
def dropWs : List Char → List Char
  | [] => []
  | c :: cs => if c.isWhitespace then dropWs cs else c :: cs

/-- Python `str.strip()`: drop leading and trailing whitespace. -/
def pyStrip (l : List Char) : List Char :=
  (dropWs ((dropWs l).reverse)).reverse

/-- Python `str.strip()` on a String. -/
def pyStripStr (s : String) : String := ⟨pyStrip s.data⟩

/-- Python `[g.strip() for g in s.split(',')]`. -/
def splitCommaTrim (s : String) : List String :=
  (splitCommaGo s.data []).map (fun l => String.mk (pyStrip l))

/-- Python truthiness of an optional string argument (`None`/`""` falsy). -/
def truthy : Option String → Bool
  | none => false
  | some s => !strEmpty s

/-- Book row of the `books` table (`db/models.py`, class Book). -/
structure Book where
  id : Nat
  titulo : String
  autor : String
  genero : String
  sinopsis : String
  isbn : String
  disponibilidad : Bool
  estante : String
deriving Repr, DecidableEq

/-- Wire shape returned by the repository (`Book.to_dict` / the dicts
built by the raw-cursor paths; both produce the same six fields). -/
structure BookDict where
  titulo : String
  autor : String
  genero : String
  synopsis : String
  disponibilidad : Bool
  estante : String
deriving Repr, DecidableEq

/-- Book.to_dict from `db/models.py`. -/
def Book.to_dict (b : Book) : BookDict :=
  { titulo := b.titulo
    autor := b.autor
    genero := b.genero
    synopsis := b.sinopsis
    disponibilidad := b.disponibilidad
    estante := b.estante }

/-- The embedded datastore: the `books` table in rowid order plus the
vss_books nearest-neighbour index, abstracted as a per-query-text rowid
ordering (ascending distance). -/
structure Db where
  books : List Book
  ranking : String → List Nat

/-- `SELECT rowid, distance FROM vss_books WHERE vss_search(embedding, ?) LIMIT k`,
keeping only the rowids. -/
def vssSearch (db : Db) (q : String) (k : Nat) : List Nat :=
  (db.ranking q).take k

/-- `SELECT ... FROM books WHERE id = ?` (first row; id is the primary key). -/
def getBook (db : Db) (i : Nat) : Option Book :=
  db.books.find? (fun b => b.id == i)

/-- `SELECT ... FROM books WHERE id IN (ids)`: table order, one row per
matching stored book. -/
def getBooksByIds (db : Db) (ids : List Nat) : List Book :=
  db.books.filter (fun b => ids.contains b.id)

/-- BookRepository.search_by_title: case-insensitive substring match on
titulo first (`Book.titulo.ilike('%query%')`, first row); on no match,
nearest-neighbour search and fetch of the top rowid. -/
def search_by_title (db : Db) (query : String) (limit : Nat := 3) :
    Option BookDict :=
  match db.books.find? (fun b => likeContains b.titulo query) with
  | some b => some b.to_dict
  | none =>
    match vssSearch db query limit with
    | [] => none
    | bookId :: _ =>
      match getBook db bookId with
      | some b => some b.to_dict
      | none => none

/-- Free-text branch of BookRepository.search_by_criteria: nearest-neighbour
search on the query embedding (LIMIT limit), then fetch all matching rows. -/
def queryBranchResults (db : Db) (q : String) (limit : Nat) : List BookDict :=
  if (vssSearch db q limit).isEmpty then []
  else (getBooksByIds db (vssSearch db q limit)).map Book.to_dict

/-- Author branch of search_by_criteria:
`WHERE id IN (candidates) AND autor LIKE '%w1%' AND ... LIMIT limit`,
candidates being the 10 nearest neighbours of `"{author} autor"`. -/
def authorBranchRows (db : Db) (a : String) (limit : Nat) : List Book :=
  (db.books.filter (fun b =>
      (vssSearch db (a ++ " autor") 10).contains b.id &&
      (pySplitWs a).all (fun w => likeContains b.autor w))).take limit

/-- SQL-only fallback of search_by_criteria: author-word filters only when
no embedding model was passed, then genre substring filter, then LIMIT. -/
def criteriaSqlFallback (db : Db) (author genre : Option String)
    (hasModel : Bool) (limit : Nat) : List Book :=
  let q1 := if truthy author && !hasModel then
      (pySplitWs (author.getD "")).foldl
        (fun acc w => acc.filter (fun b => likeContains b.autor w)) db.books
    else db.books
  let q2 := if truthy genre then
      q1.filter (fun b => likeContains b.genero (genre.getD ""))
    else q1
  q2.take limit

/-- BookRepository.search_by_criteria.  `hasModel` mirrors whether a
sentence-transformer model was passed.  Returns `none` for the raised
OperationalError when the author branch builds an empty SQL conjunction
(whitespace-only author with a non-empty candidate window). -/
def search_by_criteria (db : Db) (author genre query : Option String)
    (hasModel : Bool) (limit : Nat := 3) : Option (List BookDict) :=
  if truthy query && hasModel then
    some (queryBranchResults db (query.getD "") limit)
  else if truthy author && hasModel then
    if (vssSearch db (author.getD "" ++ " autor") 10).isEmpty then
      some ((criteriaSqlFallback db author genre hasModel limit).map Book.to_dict)
    else if (pySplitWs (author.getD "")).isEmpty then none
    else if (authorBranchRows db (author.getD "") limit).isEmpty then
      some ((criteriaSqlFallback db author genre hasModel limit).map Book.to_dict)
    else some ((authorBranchRows db (author.getD "") limit).map Book.to_dict)
  else
    some ((criteriaSqlFallback db author genre hasModel limit).map Book.to_dict)

/-- Tool wrapper `search_books_by_criteria` (agents/tools/search_criteria.py):
passes the model exactly when a query or author argument is truthy, and
limit 3. -/
def search_books_by_criteria (db : Db) (author genre query : Option String) :
    Option (List BookDict) :=
  search_by_criteria db author genre query (truthy query || truthy author) 3

/-- Genre-inference prompt built by BookRepository.recommend_similar. -/
def genrePrompt (reference : String) : String :=
  "El libro \"" ++ reference ++ "\" no está en nuestra base de datos.\n\n" ++
  "Basándote en tu conocimiento, ¿de qué género(s) es este libro?\n\n" ++
  "Responde SOLO con los géneros separados por comas, sin explicaciones adicionales.\n" ++
  "Formato: Género1, Género2, Género3\n\n" ++
  "Ejemplos:\n" ++
  "- Harry Potter: Fantasía juvenil, Aventura, Literatura infantil\n" ++
  "- Cien años de soledad: Realismo mágico, Novela histórica, Literatura latinoamericana\n" ++
  "- El código Da Vinci: Thriller, Misterio, Ficción histórica\n\n" ++
  "Libro: " ++ reference ++ "\nGéneros:"

/-- Step 1 of recommend_similar: rowid of the reference book, the single
nearest neighbour of the reference embedding (None when the index is empty). -/
def rsRefId (db : Db) (reference : String) : Option Nat :=
  (vssSearch db reference 1).head?

/-- Genre label determined for the reference: taken verbatim from the
resolved catalog book when it yields a truthy string, else the trimmed LLM
completion, else empty. -/
def rsGenreLabel (db : Db) (reference : String)
    (llm : Option (String → String)) : String :=
  let g0 := (((rsRefId db reference).bind (getBook db)).map Book.genero).getD ""
  if strEmpty g0 then
    match llm with
    | some f => pyStripStr (f (genrePrompt reference))
    | none => ""
  else g0

/-- Step 3 of recommend_similar: ids of all books whose genero matches any
comma-split token of the determined label (`genero LIKE '%tok%' OR ...`). -/
def rsGenreIds (db : Db) (reference : String)
    (llm : Option (String → String)) : List Nat :=
  (db.books.filter (fun b =>
      (splitCommaTrim (rsGenreLabel db reference llm)).any
        (fun g => likeContains b.genero g))).map Book.id

/-- Widened-fallback condition of recommend_similar
(`len(genre_book_ids) < 2 and ref_book_id`, with the integer truthiness of
`ref_book_id`). -/
def rsWidened (db : Db) (reference : String)
    (llm : Option (String → String)) : Bool :=
  match rsRefId db reference with
  | some r => decide ((rsGenreIds db reference llm).length < 2) && (r != 0)
  | none => false

/-- The rowids recommend_similar fetches: the widened general search
(excluding the reference row) when the eligible set is too small and a
reference was found, else the genre-filtered slice of the 50 nearest
neighbours (excluding the reference row when found), truncated to limit. -/
def rsBookIds (db : Db) (reference : String) (limit : Nat)
    (llm : Option (String → String)) : List Nat :=
  let gids := rsGenreIds db reference llm
  match rsRefId db reference with
  | some r =>
    if gids.length < 2 ∧ r ≠ 0 then
      (vssSearch db reference limit).filter (fun i => i != r)
    else if gids.length < 1 then []
    else
      let filtered := (vssSearch db reference 50).filter
        (fun i => gids.contains i)
      if r ≠ 0 then (filtered.filter (fun i => i != r)).take limit
      else filtered.take limit
  | none =>
    if gids.length < 1 then []
    else ((vssSearch db reference 50).filter
      (fun i => gids.contains i)).take limit

/-- BookRepository.recommend_similar, stopping before the final to_dict
projection (the fetched rows, in table order). -/
def recommend_similar_rows (db : Db) (reference : String) (limit : Nat)
    (llm : Option (String → String)) : List Book :=
  if strEmpty (rsGenreLabel db reference llm) then []
  else getBooksByIds db (rsBookIds db reference limit llm)

/-- BookRepository.recommend_similar (wire shape). -/
def recommend_similar (db : Db) (reference : String) (limit : Nat)
    (llm : Option (String → String)) : List BookDict :=
  (recommend_similar_rows db reference limit llm).map Book.to_dict

/-- Genre-inference prompt built by BookRepository.recommend_by_author. -/
def rbaPrompt (author_query : String) : String :=
  "El autor \"" ++ author_query ++ "\" no está en nuestra base de datos.\n\n" ++
  "Basándote en tu conocimiento, ¿qué géneros literarios escribe este autor?\n\n" ++
  "Responde SOLO con los géneros separados por comas, sin explicaciones adicionales.\n" ++
  "Formato: Género1, Género2, Género3\n\n" ++
  "Ejemplos:\n" ++
  "- Isabel Allende: Realismo mágico, Novela histórica, Literatura latinoamericana\n" ++
  "- Stephen King: Terror psicológico, Horror sobrenatural, Thriller\n" ++
  "- J.K. Rowling: Fantasía juvenil, Aventura, Literatura infantil\n\n" ++
  "Autor: " ++ author_query ++ "\nGéneros:"

/-- Worker for `dedupKeepFirst`, carrying the elements already seen. -/
def dedupGo {α : Type} [BEq α] : List α → List α → List α
  | [], _ => []
  | a :: as, seen =>
    if seen.contains a then dedupGo as seen else a :: dedupGo as (a :: seen)

/-- First-occurrence deduplication, modelling `SELECT DISTINCT` over a scan
in table order, and Python `list(set(...))` up to element order (the result
is only ever used for membership tests / OR-filters). -/
def dedupKeepFirst {α : Type} [BEq α] (l : List α) : List α := dedupGo l []

/-- Step 1 of recommend_by_author: candidate window of the 5 nearest
neighbours of `"{author_query} autor"`. -/
def rbaCandidates (db : Db) (author_query : String) : List Nat :=
  vssSearch db (author_query ++ " autor") 5

/-- Step 2 of recommend_by_author:
`SELECT DISTINCT autor, genero FROM books WHERE id IN (candidates) AND autor LIKE '%first_word%'`.
`none` models the IndexError raised by `author_query.split()[0]` on a
whitespace-only author query (only reached when the window is non-empty). -/
def rbaPairs (db : Db) (author_query : String) :
    Option (List (String × String)) :=
  if (rbaCandidates db author_query).isEmpty then some []
  else
    match (pySplitWs author_query).head? with
    | none => none
    | some w =>
      some (dedupKeepFirst
        ((db.books.filter (fun b =>
            (rbaCandidates db author_query).contains b.id &&
            likeContains b.autor w)).map (fun b => (b.autor, b.genero))))

/-- The matched in-catalog author (`actual_author`): first DISTINCT row's
autor, when any candidate matched. -/
def rbaActualAuthor (db : Db) (author_query : String) : Option String :=
  (rbaPairs db author_query).bind (fun ps => ps.head?.map Prod.fst)

/-- Genre set used by recommend_by_author: the matched author's distinct
genres, else the comma-split trimmed LLM completion (note that an empty
completion yields the single token `""`, because `''.split(',') == ['']`). -/
def rbaGenres (pairs : List (String × String)) (author_query : String)
    (llm : Option (String → String)) : List String :=
  let genres0 := dedupKeepFirst (pairs.map Prod.snd)
  if genres0.isEmpty then
    match llm with
    | some f => splitCommaTrim (pyStripStr (f (rbaPrompt author_query)))
    | none => []
  else genres0

/-- Eligible rowids for recommend_by_author: genre OR-substring match, and
author different from the matched author when one was found
(`autor != ?`, exact case-sensitive comparison). -/
def rbaEligibleIds (db : Db) (pairs : List (String × String))
    (author_query : String) (llm : Option (String → String)) : List Nat :=
  (db.books.filter (fun b =>
      ((rbaGenres pairs author_query llm).any
        (fun g => likeContains b.genero g)) &&
      (match pairs.head?.map Prod.fst with
       | some a => b.autor != a
       | none => true))).map Book.id

/-- Rowids recommend_by_author fetches: the genre-eligible slice of the 50
nearest neighbours, truncated to limit. -/
def rbaBookIds (db : Db) (pairs : List (String × String))
    (author_query : String) (limit : Nat)
    (llm : Option (String → String)) : List Nat :=
  ((vssSearch db (author_query ++ " autor") 50).filter
    (fun i => (rbaEligibleIds db pairs author_query llm).contains i)).take limit

/-- Main path of recommend_by_author after the candidate scan. -/
def rbaMain (db : Db) (pairs : List (String × String)) (author_query : String)
    (limit : Nat) (llm : Option (String → String)) : List BookDict :=
  if (rbaGenres pairs author_query llm).isEmpty then []
  else if (rbaEligibleIds db pairs author_query llm).isEmpty then []
  else if (rbaBookIds db pairs author_query limit llm).isEmpty then []
  else (getBooksByIds db (rbaBookIds db pairs author_query limit llm)).map
    Book.to_dict

/-- BookRepository.recommend_by_author.  `none` models the raised
IndexError (see `rbaPairs`). -/
def recommend_by_author (db : Db) (author_query : String) (limit : Nat)
    (llm : Option (String → String)) : Option (List BookDict) :=
  (rbaPairs db author_query).map
    (fun pairs => rbaMain db pairs author_query limit llm)

/-- Tool call emitted by the tool-calling language model. -/
structure ToolCall where
  name : String
  args : String
deriving Repr, DecidableEq

/-- LangChain message shapes used by the LibreraAgent state
(`agents/agent.py`): system, human, AI (with tool calls) and tool result. -/
inductive Msg where
  | system (content : String)
  | human (content : String)
  | ai (content : String) (toolCalls : List ToolCall)
  | tool (content : String)
deriving Repr, DecidableEq

/-- Message content (`msg.content`, serialized to text). -/
def Msg.content : Msg → String
  | .system c => c
  | .human c => c
  | .ai c _ => c
  | .tool c => c

/-- Python `hasattr(msg, 'type') and msg.type == 'tool'`. -/
def isToolMsg : Msg → Bool
  | .tool _ => true
  | _ => false

/-- Python `hasattr(msg, 'tool_calls') and msg.tool_calls`: only AI
messages carry the attribute, and an empty list is falsy. -/
def hasToolCalls : Msg → Bool
  | .ai _ tcs => !tcs.isEmpty
  | _ => false

/-- Tool calls of a message (empty for non-AI messages). -/
def toolCallsOf : Msg → List ToolCall
  | .ai _ tcs => tcs
  | _ => []

/-- SYSTEM_PROMPT of `agents/prompts.py` with the conversation history
interpolated (`_start_node`). -/
def systemPromptText (history : String) : String :=
  "Eres un asistente bibliotecario útil para una librería.\n\n" ++
  "⚠️ CRÍTICO: Esta es una interfaz de VOZ. Mantén las respuestas EXTREMADAMENTE cortas (1-20 palabras, máximo 30).\n\n" ++
  "Tu rol es ayudar a los usuarios a encontrar libros, hacer recomendaciones y responder preguntas sobre la colección.\n\n" ++
  history ++ "\n\n" ++
  "HERRAMIENTAS DISPONIBLES:\n" ++
  "- search_book_by_title: Buscar un libro específico por título\n" ++
  "- search_books_by_criteria: Buscar libros por autor, género o consulta de texto libre\n" ++
  "- recommend_similar_books: Recomendar libros similares a un libro específico (mismo género)\n" ++
  "- recommend_by_author: Recomendar libros de autores similares (mismo género, diferente autor)\n\n" ++
  "INSTRUCCIONES IMPORTANTES:\n" ++
  "- SIEMPRE usa herramientas para buscar en la base de datos antes de responder\n" ++
  "- Si el usuario pregunta por un libro específico, usa search_book_by_title\n" ++
  "- Si el usuario pregunta de forma amplia, usa search_books_by_criteria\n" ++
  "- Si el libro no está disponible, usa recommend_similar_books para sugerir alternativas\n" ++
  "- Sé amable, conciso y útil\n" ++
  "- NUNCA des sinopsis largas o descripciones detalladas\n" ++
  "- Solo da: título, autor y ubicación del estante\n\n" ++
  "⚠️ REFERENCIAS CONTEXTUALES:\n" ++
  "- Si el usuario dice \"ese libro\", \"ese autor\", \"el que mencionaste\", etc., usa el HISTORIAL DE CONVERSACIÓN arriba\n" ++
  "- Identifica a qué libro/autor se refiere en el historial reciente\n" ++
  "- Luego busca ESE libro/autor específico usando search_book_by_title\n" ++
  "- Ejemplo: Si recomendaste \"American Assassin\" y preguntan \"de qué trata ese libro\", busca \"American Assassin\"\n"

/-- Planning prompt built by `_plan_and_search_node` around the user query
(abridged to its decision-relevant skeleton; it is only ever passed opaquely
to the model oracle). -/
def planPrompt (u : String) : String :=
  "La pregunta del usuario es: \"" ++ u ++ "\"\n\n" ++
  "CRÍTICO: DEBES llamar a UNA herramienta. NO puedes responder sin llamar una herramienta primero.\n\n" ++
  "Analiza la pregunta:\n\n" ++
  "0. REFERENCIAS CONTEXTUALES: mira el HISTORIAL DE CONVERSACIÓN y usa search_book_by_title con el libro identificado\n" ++
  "1. Si menciona un TÍTULO ESPECÍFICO de libro: USA search_book_by_title\n" ++
  "2. Si pide RECOMENDACIONES o describe una NECESIDAD: USA search_books_by_criteria con el query apropiado\n" ++
  "3. Si menciona AUTOR o GÉNERO: USA search_books_by_criteria\n\n" ++
  "IMPORTANTE sobre recomendaciones:\n" ++
  "- Si pide \"similar a [AUTOR]\" usa recommend_by_author\n" ++
  "- Si pide \"similar a [LIBRO]\" usa recommend_similar_books\n\n" ++
  "NO RESPONDAS CON TEXTO. LLAMA LA HERRAMIENTA AHORA."

/-- Keyword heuristic of `_check_and_recommend_node` classifying the query
as author-oriented.  (Python lowers with full-Unicode `str.lower()`; the
ASCII fold only differs on upper-case accented letters, and the choice only
selects which re-prompt text is sent to the opaque model.) -/
def isAuthorQuery (u : String) : Bool :=
  ["autor", "autora", "escribió", "escribe"].any
    (fun w => containsStr (lowerAscii u) w)

/-- Re-prompt sent by `_check_and_recommend_node` when the last tool result
was empty/null-like. -/
def checkPrompt (u : String) : String :=
  if isAuthorQuery u then
    "El libro/autor buscado no se encontró. Usa recommend_by_author con el nombre del autor de la consulta: \"" ++
    u ++ "\"\n\nIMPORTANTE: Solo llama a recommend_by_author, no hagas nada más."
  else
    "El libro buscado no se encontró. Usa recommend_similar_books con la consulta original del usuario: \"" ++
    u ++ "\"\n\nIMPORTANTE: Solo llama a recommend_similar_books, no hagas nada más."

/-- Empty/null-like test of `_check_and_recommend_node`:
`"None" in result_content or not result_content or result_content == "[]"`. -/
def isEmptyish (c : String) : Bool :=
  containsStr c "None" || strEmpty c || c == "[]"

/-- External collaborators of the control loop: the tool-calling model
(returns the AI message's content and tool calls), the tool executor (one
result string per call), and the formatted conversation history. -/
structure AgentOracle where
  invoke : List Msg → String × List ToolCall
  runTool : ToolCall → String
  history : String

/-- Messages after `_start_node`: system prompt plus the user input. -/
def startMsgs (o : AgentOracle) (u : String) : List Msg :=
  [Msg.system (systemPromptText o.history), Msg.human u]

/-- AI response of `_plan_and_search_node` (the mode prompt itself is not
added to the state, only the response is). -/
def planResponse (o : AgentOracle) (u : String) : Msg :=
  let p := o.invoke (startMsgs o u ++ [Msg.human (planPrompt u)])
  Msg.ai p.1 p.2

/-- ToolNode: execute each tool call of an AI message, appending one tool
message per call. -/
def execToolMsgs (o : AgentOracle) (m : Msg) : List Msg :=
  (toolCallsOf m).map (fun tc => Msg.tool (o.runTool tc))

/-- State after `plan_and_search` and the conditional `execute_search` hop
(`_route_after_plan`: tools run iff the response carries tool calls). -/
def msgsAfterSearch (o : AgentOracle) (u : String) : List Msg :=
  let m1 := startMsgs o u ++ [planResponse o u]
  if hasToolCalls (planResponse o u) then
    m1 ++ execToolMsgs o (planResponse o u)
  else m1

/-- The tool messages `_check_and_recommend_node` collects. -/
def toolMsgsAtCheck (o : AgentOracle) (u : String) : List Msg :=
  (msgsAfterSearch o u).filter isToolMsg

/-- Messages `_check_and_recommend_node` appends: a re-prompted model
response when the most recent tool result is empty/null-like, nothing
otherwise. -/
def checkDelta (o : AgentOracle) (u : String) : List Msg :=
  match (toolMsgsAtCheck o u).getLast? with
  | none => []
  | some last =>
    if isEmptyish last.content then
      let p := o.invoke (msgsAfterSearch o u ++ [Msg.human (checkPrompt u)])
      [Msg.ai p.1 p.2]
    else []

/-- State when `_route_after_check` runs. -/
def msgsAfterCheck (o : AgentOracle) (u : String) : List Msg :=
  msgsAfterSearch o u ++ checkDelta o u

/-- `_route_after_check`: the `execute_recommend` transition is taken iff
the last message carries tool calls. -/
def recommendTaken (o : AgentOracle) (u : String) : Bool :=
  match (msgsAfterCheck o u).getLast? with
  | some m => hasToolCalls m
  | none => false

/-- Node visit order of one run of the compiled workflow
(start → plan_and_search → [execute_search] → check_results →
[execute_recommend] → format → END). -/
def agentTrace (o : AgentOracle) (u : String) : List String :=
  ["start", "plan_and_search"] ++
  (if hasToolCalls (planResponse o u) then ["execute_search"] else []) ++
  ["check_results"] ++
  (if recommendTaken o u then ["execute_recommend"] else []) ++
  ["format"]

/-- The inspection `_check_and_recommend_node` performs: whether the most
recent tool result (when any exists) is empty/null-like. -/
def lastToolResultEmptyish (o : AgentOracle) (u : String) : Bool :=
  match (toolMsgsAtCheck o u).getLast? with
  | none => false
  | some last => isEmptyish last.content

/-! Concrete catalog instances used by witnesses and counterexamples. -/

/-- Sample catalog row (Scenario A of the spec). -/
def bkCien : Book :=
  ⟨1, "Cien años de soledad", "Gabriel García Márquez", "Realismo mágico",
   "Varias generaciones de la familia Buendía", "978-0307474728", true,
   "General"⟩

/-- Sample catalog row whose author matches none of the probe queries. -/
def bkBob : Book :=
  ⟨1, "La tormenta", "Bob Stone", "Terror", "", "isbn-2", true, "General"⟩

/-- Fantasy row, id 1. -/
def bkA : Book := ⟨1, "El reino", "Ana Gil", "Fantasía", "", "isbn-3", true, "Ficción"⟩

/-- Fantasy row, id 2. -/
def bkB : Book := ⟨2, "La torre", "Luis Paz", "Fantasía", "", "isbn-4", true, "Ficción"⟩

/-- Terror row, id 2. -/
def bkC : Book := ⟨2, "La cripta", "Sara Mol", "Terror", "", "isbn-5", true, "Ficción"⟩

/-- Drama row by the probed author. -/
def bkAnn : Book := ⟨1, "Mar adentro", "Ann Lee", "Drama", "", "isbn-6", true, "General"⟩

/-- Drama row by a different author. -/
def bkOther : Book := ⟨2, "Rio arriba", "Bob Roy", "Drama", "", "isbn-7", true, "General"⟩

/-- One-row catalog whose index always answers with that row. -/
def dbCien : Db := ⟨[bkCien], fun _ => [1]⟩

/-- Same catalog with an empty vector index. -/
def dbCienAlt : Db := ⟨[bkCien], fun _ => []⟩

/-- Two same-genre rows. -/
def dbSame : Db := ⟨[bkA, bkB], fun _ => [1, 2]⟩

/-- Two rows of different genres. -/
def dbMix : Db := ⟨[bkA, bkC], fun _ => [1, 2]⟩

/-- One-row catalog, constant index answer. -/
def dbBob : Db := ⟨[bkBob], fun _ => [1]⟩

/-- One-row catalog whose index only answers the author-probe text. -/
def dbGhost : Db := ⟨[bkBob], fun s => if s = "Ghost autor" then [1] else []⟩

/-- Two drama rows by different authors. -/
def dbAnn : Db := ⟨[bkAnn, bkOther], fun _ => [1, 2]⟩

/-- Oracle that always emits one recommendation tool call and whose tools
always return the string "None". -/
def oRec : AgentOracle :=
  ⟨fun _ => ("", [⟨"recommend_similar_books", "Harry Potter"⟩]),
   fun _ => "None", ""⟩

/-! Helper lemmas. -/

/-- A non-empty string is not Python-falsy. -/
theorem strEmpty_eq_false {s : String} (h : s ≠ "") : strEmpty s = false := by
  cases s with
  | mk l =>
    cases l with
    | nil => exact absurd rfl h
    | cons c cs => rfl

/-- `List.contains` on rowids agrees with membership. -/
theorem mem_of_contains_nat {l : List Nat} {a : Nat}
    (h : l.contains a = true) : a ∈ l := by
  simpa using h

/-- Membership in a fetched row set decomposes into catalog membership and
a selected rowid. -/
theorem getBooksByIds_sub {db : Db} {ids : List Nat} {b : Book}
    (h : b ∈ getBooksByIds db ids) : b ∈ db.books ∧ b.id ∈ ids := by
  have h' := List.mem_filter.mp h
  exact ⟨h'.1, by simpa using h'.2⟩

/-- With the primary-key invariant, fetching by a rowid list returns at
most one row per listed id. -/
theorem length_getBooksByIds_le (db : Db) (ids : List Nat)
    (hnd : (db.books.map Book.id).Nodup) :
    (getBooksByIds db ids).length ≤ ids.length := by
  have hsub : (getBooksByIds db ids).map Book.id ⊆ ids := by
    intro x hx
    obtain ⟨b, hb, hbx⟩ := List.mem_map.mp hx
    exact hbx ▸ (getBooksByIds_sub hb).2
  have hnd' : ((getBooksByIds db ids).map Book.id).Nodup :=
    hnd.sublist ((List.filter_sublist db.books).map Book.id)
  calc (getBooksByIds db ids).length
      = ((getBooksByIds db ids).map Book.id).length := (List.length_map _ _).symm
    _ ≤ ids.length := (hnd'.subperm hsub).length_le

/-- Two catalog rows with the same primary key are the same row. -/
theorem eq_of_mem_id_nodup {books : List Book}
    (hnd : (books.map Book.id).Nodup) {b b' : Book}
    (hb : b ∈ books) (hb' : b' ∈ books) (hid : b.id = b'.id) : b = b' :=
  List.inj_on_of_nodup_map hnd hb hb' hid

/-! Claim theorems. -/

/-- Claim C1: for every title query that is a case-insensitive substring of
at least one catalog title, search_by_title returns the first matching row
of the table via the substring match alone — the result does not depend on
the vector index at all, so no closer embedding match can displace it. -/
theorem search_title_exact_precedence (books : List Book)
    (rk rk' : String → List Nat) (q : String) (lim : Nat)
    (h : ∃ b ∈ books, likeContains b.titulo q = true) :
    search_by_title ⟨books, rk⟩ q lim
      = (books.find? (fun b => likeContains b.titulo q)).map Book.to_dict ∧
    search_by_title ⟨books, rk⟩ q lim = search_by_title ⟨books, rk'⟩ q lim := by
  have hs : (books.find? (fun b => likeContains b.titulo q)).isSome := by
    rw [List.find?_isSome]
    obtain ⟨b, hb, hlike⟩ := h
    exact ⟨b, hb, hlike⟩
  obtain ⟨b, hb⟩ := Option.isSome_iff_exists.mp hs
  constructor
  · simp [search_by_title, hb]
  · simp [search_by_title, hb]

/-- Witness for C1 at a concrete catalog: the result is the same whether
the vector index answers or is empty. -/
theorem search_title_exact_precedence_witness :
    search_by_title dbCien "cien años" 3
      = search_by_title dbCienAlt "cien años" 3 :=
  (search_title_exact_precedence [bkCien] (fun s => [1]) (fun s => [])
    "cien años" 3 ⟨bkCien, by decide, by decide⟩).2

/-- Claim C10: invoking the criteria-search tool with author, genre and
free-text query all absent returns the first three catalog rows in storage
order, unfiltered — and in particular a non-empty list whenever the catalog
is non-empty (and it never raises: the fallback path is total). -/
theorem criteria_all_absent_full_scan (db : Db) :
    search_books_by_criteria db none none none
      = some ((db.books.take 3).map Book.to_dict) ∧
    (db.books ≠ [] → search_books_by_criteria db none none none ≠ some []) := by
  have hmain : search_books_by_criteria db none none none
      = some ((db.books.take 3).map Book.to_dict) := by
    simp [search_books_by_criteria, search_by_criteria, truthy,
      criteriaSqlFallback]
  refine ⟨hmain, fun hne => ?_⟩
  rw [hmain]
  intro hcon
  have h1 := Option.some_injective _ hcon
  have h2 : db.books.take 3 = [] := by
    cases htk : db.books.take 3 with
    | nil => rfl
    | cons x xs => rw [htk] at h1; simp at h1
  rcases List.take_eq_nil_iff.mp h2 with h3 | h3
  · exact absurd h3 (by simp)
  · exact hne h3

/-- Witness for C10 at a concrete one-row catalog. -/
theorem criteria_all_absent_full_scan_witness :
    search_books_by_criteria dbBob none none none
      = some ((dbBob.books.take 3).map Book.to_dict) ∧
    search_books_by_criteria dbBob none none none ≠ some [] :=
  ⟨(criteria_all_absent_full_scan dbBob).1,
   (criteria_all_absent_full_scan dbBob).2 (by decide)⟩

/-- Claim C7 counterexample: with a free-text query plus an author filter,
the code returns a book whose author does not contain the supplied author
word — the author argument is not applied as a pre-filter. -/
theorem criteria_query_prefilter_cex :
    search_by_criteria dbBob (some "Alice") none (some "magia") true 3
      = some [bkBob.to_dict] ∧
    likeContains bkBob.autor "Alice" = false := by decide

/-- Claim C7 (amended): when a free-text query is supplied (with a model),
the free-text branch is taken — but the supplied author and genre are
ignored rather than applied as pre-filters: the result is exactly the
query-branch output and does not depend on the author/genre arguments. -/
theorem criteria_query_ignores_filters (db : Db) (q : String)
    (a a' g g' : Option String) (lim : Nat) (hq : q ≠ "") :
    search_by_criteria db a g (some q) true lim
      = some (queryBranchResults db q lim) ∧
    search_by_criteria db a g (some q) true lim
      = search_by_criteria db a' g' (some q) true lim := by
  have ht : truthy (some q) = true := by
    simp [truthy, strEmpty_eq_false hq]
  constructor
  · simp [search_by_criteria, ht]
  · simp [search_by_criteria, ht]

/-- Witness for the amended C7 at a concrete catalog: changing the author
and genre arguments does not change the result. -/
theorem criteria_query_ignores_filters_witness :
    search_by_criteria dbBob (some "Alice") none (some "magia") true 3
      = search_by_criteria dbBob (some "Bob") (some "Terror") (some "magia")
          true 3 :=
  (criteria_query_ignores_filters dbBob "magia" (some "Alice") (some "Bob")
    none (some "Terror") 3 (by decide)).2

/-- Claim C6 counterexample: an author-only criteria search whose candidate
window contains no row matching the author words falls back to an
unfiltered listing and returns a book whose author does not contain the
supplied word. -/
theorem criteria_author_words_cex :
    search_by_criteria dbBob (some "Alice") none none true 3
      = some [bkBob.to_dict] ∧
    likeContains bkBob.autor "Alice" = false := by decide

/-- Claim C6 (amended): for an author-only criteria search, when the
author-vector branch produces the result (non-empty candidate window,
at least one author word, at least one candidate passing the word filter),
every returned book's author contains each whitespace-separated word of
the author argument; otherwise the code falls back to a listing without
any author filter. -/
theorem criteria_author_branch_words (db : Db) (a : String)
    (genre : Option String) (lim : Nat) (ha : a ≠ "")
    (hc : vssSearch db (a ++ " autor") 10 ≠ [])
    (hw : pySplitWs a ≠ [])
    (hr : authorBranchRows db a lim ≠ []) :
    search_by_criteria db (some a) genre none true lim
      = some ((authorBranchRows db a lim).map Book.to_dict) ∧
    ∀ d ∈ (authorBranchRows db a lim).map Book.to_dict,
      ∀ w ∈ pySplitWs a, likeContains d.autor w = true := by
  have ht : truthy (some a) = true := by
    simp [truthy, strEmpty_eq_false ha]
  constructor
  · simp [search_by_criteria, ht, hc, hw, hr,
      show truthy none = false from rfl]
  · intro d hd w hwmem
    obtain ⟨b, hb, hbd⟩ := List.mem_map.mp hd
    have hb' : b ∈ db.books.filter (fun b =>
        (vssSearch db (a ++ " autor") 10).contains b.id &&
        (pySplitWs a).all (fun w => likeContains b.autor w)) :=
      List.mem_of_mem_take hb
    have hpred := (List.mem_filter.mp hb').2
    have hall := (Bool.and_eq_true _ _).mp hpred |>.2
    have := (List.all_eq_true.mp hall) w hwmem
    rw [← hbd]
    simpa [Book.to_dict] using this

/-- Witness for the amended C6: the author branch fires and the returned
book's author contains the author word. -/
theorem criteria_author_branch_words_witness :
    search_by_criteria dbAnn (some "Ann") none none true 3
      = some ((authorBranchRows dbAnn "Ann" 3).map Book.to_dict) ∧
    ∀ d ∈ (authorBranchRows dbAnn "Ann" 3).map Book.to_dict,
      ∀ w ∈ pySplitWs "Ann", likeContains d.autor w = true :=
  criteria_author_branch_words dbAnn "Ann" none 3 (by decide) (by decide)
    (by decide) (by decide)

/-- The resolved reference rowid (when truthy) never survives into the
fetched id list of recommend_similar, in every branch. -/
theorem rsRefId_not_self (db : Db) (reference : String) (lim : Nat)
    (llm : Option (String → String)) (r : Nat)
    (hr : rsRefId db reference = some r) (hr0 : r ≠ 0) :
    r ∉ rsBookIds db reference lim llm := by
  intro hmem
  simp only [rsBookIds, hr] at hmem
  split_ifs at hmem with h1 h2
  · have h := (List.mem_filter.mp hmem).2
    simp at h
  · simp at hmem
  · have h := (List.mem_filter.mp (List.mem_of_mem_take hmem)).2
    simp at h

/-- Claim C3: when the nearest-neighbour lookup resolves the reference to a
catalog row, recommend_similar never returns that row — in the widened
general-search path and in the genre-filtered path alike.  The hypothesis
on ids reflects SQLite INTEGER PRIMARY KEY AUTOINCREMENT rowids, which
start at 1. -/
theorem recommend_similar_self_exclusion (db : Db) (reference : String)
    (lim : Nat) (llm : Option (String → String)) (r : Nat) (b : Book)
    (hpos : ∀ x ∈ db.books, x.id ≠ 0)
    (hr : rsRefId db reference = some r)
    (hb : getBook db r = some b) :
    b ∉ recommend_similar_rows db reference lim llm := by
  have hbooks : b ∈ db.books := List.mem_of_find?_eq_some hb
  have hid : b.id = r := by
    have h := List.find?_some hb
    simpa using h
  have hr0 : r ≠ 0 := hid ▸ hpos b hbooks
  intro hcon
  unfold recommend_similar_rows at hcon
  split at hcon
  · simp at hcon
  · have hsub := (getBooksByIds_sub hcon).2
    rw [hid] at hsub
    exact rsRefId_not_self db reference lim llm r hr hr0 hsub

/-- Witness for C3: the resolved reference row is absent from the result. -/
theorem recommend_similar_self_exclusion_witness :
    bkA ∉ recommend_similar_rows dbSame "magia" 3 none :=
  recommend_similar_self_exclusion dbSame "magia" 3 none 1 bkA
    (by decide) (by decide) (by decide)

/-- Outside the widened fallback, every fetched rowid of recommend_similar
lies in the genre-eligible set. -/
theorem rsBookIds_subset_genre (db : Db) (reference : String) (lim : Nat)
    (llm : Option (String → String))
    (hw : rsWidened db reference llm = false) :
    ∀ i ∈ rsBookIds db reference lim llm,
      i ∈ rsGenreIds db reference llm := by
  intro i hi
  cases hr : rsRefId db reference with
  | none =>
    simp only [rsBookIds, hr] at hi
    by_cases h2 : (rsGenreIds db reference llm).length < 1
    · rw [if_pos h2] at hi
      simp at hi
    · rw [if_neg h2] at hi
      exact mem_of_contains_nat
        (List.mem_filter.mp (List.mem_of_mem_take hi)).2
  | some r =>
    have hw2 : ¬ ((rsGenreIds db reference llm).length < 2 ∧ r ≠ 0) := by
      intro hand
      simp only [rsWidened, hr] at hw
      simp [hand.1, hand.2] at hw
    simp only [rsBookIds, hr] at hi
    rw [if_neg hw2] at hi
    by_cases h2 : (rsGenreIds db reference llm).length < 1
    · rw [if_pos h2] at hi
      simp at hi
    · rw [if_neg h2] at hi
      by_cases h3 : r ≠ 0
      · rw [if_pos h3] at hi
        exact mem_of_contains_nat
          (List.mem_filter.mp
            (List.mem_filter.mp (List.mem_of_mem_take hi)).1).2
      · rw [if_neg h3] at hi
        exact mem_of_contains_nat
          (List.mem_filter.mp (List.mem_of_mem_take hi)).2

/-- Claim C5 counterexample: the widened fallback (fewer than two
genre-eligible rows with an in-catalog reference) returns a book whose
genre contains no token of the determined genre label. -/
theorem recommend_similar_genre_containment_cex :
    recommend_similar dbMix "magia" 3 none = [bkC.to_dict] ∧
    rsGenreLabel dbMix "magia" none = "Fantasía" ∧
    likeContains bkC.genero "Fantasía" = false := by decide

/-- Claim C5 (amended): outside the widened general-search fallback (which
ignores genre), every book returned by recommend_similar has a genre field
containing, as a substring, at least one comma-split whitespace-trimmed
token of the genre label determined for the reference. -/
theorem recommend_similar_genre_containment (db : Db) (reference : String)
    (lim : Nat) (llm : Option (String → String))
    (hnd : (db.books.map Book.id).Nodup)
    (hw : rsWidened db reference llm = false) :
    ∀ d ∈ recommend_similar db reference lim llm,
      ∃ g ∈ splitCommaTrim (rsGenreLabel db reference llm),
        likeContains d.genero g = true := by
  intro d hd
  simp only [recommend_similar] at hd
  obtain ⟨b, hb, hbd⟩ := List.mem_map.mp hd
  unfold recommend_similar_rows at hb
  split at hb
  · simp at hb
  · obtain ⟨hbbooks, hbid⟩ := getBooksByIds_sub hb
    have hgid := rsBookIds_subset_genre db reference lim llm hw b.id hbid
    obtain ⟨b', hb', hbid'⟩ := List.mem_map.mp hgid
    have hfil := List.mem_filter.mp hb'
    have heq : b' = b := eq_of_mem_id_nodup hnd hfil.1 hbbooks hbid'
    have hany := hfil.2
    rw [heq] at hany
    obtain ⟨g, hg, hlike⟩ := List.any_eq_true.mp hany
    exact ⟨g, hg, by rw [← hbd]; simpa [Book.to_dict] using hlike⟩

/-- Witness for the amended C5: a genre-filtered run whose result all
matches a token of the determined label. -/
theorem recommend_similar_genre_containment_witness :
    rsWidened dbSame "magia" none = false ∧
    ∀ d ∈ recommend_similar dbSame "magia" 3 none,
      ∃ g ∈ splitCommaTrim (rsGenreLabel dbSame "magia" none),
        likeContains d.genero g = true :=
  ⟨by decide,
   recommend_similar_genre_containment dbSame "magia" 3 none
     (by decide) (by decide)⟩

/-- Claim C4: when recommend_by_author matched an in-catalog author
(`actual_author`), no returned book's author field equals that author. -/
theorem recommend_by_author_author_exclusion (db : Db) (q : String)
    (lim : Nat) (llm : Option (String → String)) (a : String)
    (l : List BookDict)
    (hnd : (db.books.map Book.id).Nodup)
    (ha : rbaActualAuthor db q = some a)
    (hl : recommend_by_author db q lim llm = some l) :
    ∀ d ∈ l, d.autor ≠ a := by
  intro d hd
  unfold recommend_by_author at hl
  obtain ⟨pairs, hp, hmain⟩ := Option.map_eq_some'.mp hl
  have ha' : pairs.head?.map Prod.fst = some a := by
    unfold rbaActualAuthor at ha
    rw [hp] at ha
    simpa using ha
  subst hmain
  unfold rbaMain at hd
  split_ifs at hd
  · simp at hd
  · simp at hd
  · simp at hd
  · obtain ⟨b, hb, hbd⟩ := List.mem_map.mp hd
    obtain ⟨hbbooks, hbid⟩ := getBooksByIds_sub hb
    have hgid : b.id ∈ rbaEligibleIds db pairs q llm :=
      mem_of_contains_nat
        (List.mem_filter.mp (List.mem_of_mem_take hbid)).2
    obtain ⟨b', hb', hbid'⟩ := List.mem_map.mp hgid
    have hfil := List.mem_filter.mp hb'
    have heq : b' = b := eq_of_mem_id_nodup hnd hfil.1 hbbooks hbid'
    have hpred := hfil.2
    rw [heq] at hpred
    have hneq := ((Bool.and_eq_true _ _).mp hpred).2
    rw [ha'] at hneq
    have : b.autor ≠ a := by simpa using hneq
    rw [← hbd]
    simpa [Book.to_dict] using this

/-- Witness for C4: the matched author "Ann Lee" never appears among the
returned authors. -/
theorem recommend_by_author_author_exclusion_witness :
    rbaActualAuthor dbAnn "Ann" = some "Ann Lee" ∧
    ∀ d ∈ [bkOther.to_dict], d.autor ≠ "Ann Lee" :=
  ⟨by decide,
   recommend_by_author_author_exclusion dbAnn "Ann" 3 none "Ann Lee"
     [bkOther.to_dict] (by decide) (by decide) (by decide)⟩

/-- Claim C2 (code bug): at an input where the author is absent from the
catalog and the LLM fallback returns empty text, recommend_similar does
return an empty list, but recommend_by_author does not — the empty
completion splits to the single genre token `""`, which matches every
book, so a non-empty recommendation list escapes. -/
theorem recommend_empty_inference_divergence :
    recommend_similar dbGhost "Ghost" 3 (some (fun _ => "")) = [] ∧
    recommend_by_author dbGhost "Ghost" 3 (some (fun _ => ""))
      = some [bkBob.to_dict] ∧
    (∀ b ∈ dbGhost.books, likeContains b.autor "Ghost" = false) := by
  decide

/-- The free-text branch returns at most `limit` books. -/
theorem queryBranchResults_length_le (db : Db) (q : String) (lim : Nat)
    (hnd : (db.books.map Book.id).Nodup) :
    (queryBranchResults db q lim).length ≤ lim := by
  unfold queryBranchResults
  split_ifs with h
  · simp
  · rw [List.length_map]
    refine le_trans (length_getBooksByIds_le db _ hnd) ?_
    simp [vssSearch, List.length_take]

/-- The SQL fallback returns at most `limit` books. -/
theorem criteriaSqlFallback_length_le (db : Db) (author genre : Option String)
    (hm : Bool) (lim : Nat) :
    (criteriaSqlFallback db author genre hm lim).length ≤ lim := by
  unfold criteriaSqlFallback
  exact List.length_take_le _ _

/-- recommend_similar fetches at most `limit` rowids in every branch. -/
theorem rsBookIds_length_le (db : Db) (reference : String) (lim : Nat)
    (llm : Option (String → String)) :
    (rsBookIds db reference lim llm).length ≤ lim := by
  cases h : rsRefId db reference with
  | none =>
    simp only [rsBookIds, h]
    split_ifs
    · simp
    · exact List.length_take_le _ _
  | some r =>
    simp only [rsBookIds, h]
    split_ifs
    · refine le_trans (List.length_filter_le _ _) ?_
      simp [vssSearch, List.length_take]
    · simp
    · exact List.length_take_le _ _
    · exact List.length_take_le _ _

/-- recommend_similar returns at most `limit` entries. -/
theorem recommend_similar_length_le (db : Db) (reference : String)
    (lim : Nat) (llm : Option (String → String))
    (hnd : (db.books.map Book.id).Nodup) :
    (recommend_similar db reference lim llm).length ≤ lim := by
  unfold recommend_similar recommend_similar_rows
  split_ifs
  · simp
  · rw [List.length_map]
    exact le_trans (length_getBooksByIds_le db _ hnd)
      (rsBookIds_length_le db reference lim llm)

/-- The main path of recommend_by_author returns at most `limit` entries. -/
theorem rbaMain_length_le (db : Db) (pairs : List (String × String))
    (q : String) (lim : Nat) (llm : Option (String → String))
    (hnd : (db.books.map Book.id).Nodup) :
    (rbaMain db pairs q lim llm).length ≤ lim := by
  unfold rbaMain
  split_ifs
  · simp
  · simp
  · simp
  · rw [List.length_map]
    refine le_trans (length_getBooksByIds_le db _ hnd) ?_
    exact List.length_take_le _ _

/-- Claim C8: with the primary-key invariant on the catalog, every branch of
search_by_criteria, recommend_similar and recommend_by_author returns a
list of at most `limit` entries (the tool wrappers pass the default 3). -/
theorem result_cap (db : Db) (hnd : (db.books.map Book.id).Nodup)
    (author genre query : Option String) (hm : Bool) (reference aq : String)
    (lim : Nat) (llm llm2 : Option (String → String)) :
    (∀ l, search_by_criteria db author genre query hm lim = some l →
        l.length ≤ lim) ∧
    (recommend_similar db reference lim llm).length ≤ lim ∧
    (∀ l, recommend_by_author db aq lim llm2 = some l → l.length ≤ lim) := by
  refine ⟨?_, recommend_similar_length_le db reference lim llm hnd, ?_⟩
  · intro l hl
    unfold search_by_criteria at hl
    split_ifs at hl
    all_goals
      first
        | exact Option.noConfusion hl
        | (injection hl with h
           subst h
           first
             | exact queryBranchResults_length_le db _ lim hnd
             | (rw [List.length_map]
                first
                  | exact criteriaSqlFallback_length_le db _ _ _ _
                  | exact List.length_take_le _ _))
  · intro l hl
    unfold recommend_by_author at hl
    obtain ⟨pairs, hp, hmain⟩ := Option.map_eq_some'.mp hl
    rw [← hmain]
    exact rbaMain_length_le db pairs aq lim llm2 hnd

/-- Witness for C8 at a concrete catalog and limit. -/
theorem result_cap_witness :
    (dbSame.books.map Book.id).Nodup ∧
    (recommend_similar dbSame "magia" 1 none).length ≤ 1 :=
  ⟨by decide,
   (result_cap dbSame (by decide) none none none false "magia" "x" 1
     none none).2.1⟩

/-- When the check node appends nothing, the recommend transition cannot
fire: the last message is either the plan response without tool calls or a
tool message (which never carries tool calls). -/
theorem recommendTaken_of_checkDelta_nil (o : AgentOracle) (u : String)
    (hd : checkDelta o u = []) : recommendTaken o u = false := by
  unfold recommendTaken msgsAfterCheck
  rw [hd, List.append_nil]
  unfold msgsAfterSearch
  cases hplan : hasToolCalls (planResponse o u) with
  | false =>
    rw [if_neg (by simp [hplan])]
    rw [List.getLast?_concat]
    exact hplan
  | true =>
    rw [if_pos (by simp [hplan])]
    have htcs : toolCallsOf (planResponse o u) ≠ [] := by
      intro hnil
      cases hm : planResponse o u with
      | ai c tcs =>
        rw [hm] at hnil hplan
        simp [toolCallsOf] at hnil
        simp [hasToolCalls, hnil] at hplan
      | system c => rw [hm] at hplan; simp [hasToolCalls] at hplan
      | human c => rw [hm] at hplan; simp [hasToolCalls] at hplan
      | tool c => rw [hm] at hplan; simp [hasToolCalls] at hplan
    have hexec : execToolMsgs o (planResponse o u) ≠ [] := by
      unfold execToolMsgs
      simpa using htcs
    rw [List.getLast?_append]
    obtain ⟨m, hm⟩ := Option.isSome_iff_exists.mp
      (List.getLast?_isSome.mpr hexec)
    rw [hm]
    have hmem : m ∈ execToolMsgs o (planResponse o u) :=
      List.mem_of_getLast?_eq_some hm
    obtain ⟨tc, _, htc⟩ := List.mem_map.mp hmem
    rw [← htc]
    rfl

/-- Claim C9: the execute_recommend stage is reached only when the most
recent tool result inspected at check_results exists and is
empty/null-like; a non-empty primary search result never leads to the
recommendation stage. -/
theorem check_gates_recommend (o : AgentOracle) (u : String)
    (h : "execute_recommend" ∈ agentTrace o u) :
    lastToolResultEmptyish o u = true ∧ toolMsgsAtCheck o u ≠ [] := by
  have hrec : recommendTaken o u = true := by
    cases hb : recommendTaken o u with
    | true => rfl
    | false =>
      exfalso
      unfold agentTrace at h
      rw [hb] at h
      cases hplan : hasToolCalls (planResponse o u) with
      | true => rw [hplan] at h; simp at h
      | false => rw [hplan] at h; simp at h
  have hdelta : checkDelta o u ≠ [] := by
    intro hd
    rw [recommendTaken_of_checkDelta_nil o u hd] at hrec
    exact Bool.false_ne_true hrec
  unfold checkDelta at hdelta
  cases hlast : (toolMsgsAtCheck o u).getLast? with
  | none => simp only [hlast] at hdelta; exact absurd rfl hdelta
  | some last =>
    simp only [hlast] at hdelta
    constructor
    · unfold lastToolResultEmptyish
      simp only [hlast]
      by_contra he
      rw [if_neg he] at hdelta
      exact hdelta rfl
    · intro hnil
      rw [hnil] at hlast
      exact Option.noConfusion hlast

/-- Witness for C9: a run that actually reaches execute_recommend, whose
inspected tool result is the empty-like string "None". -/
theorem check_gates_recommend_witness :
    lastToolResultEmptyish oRec "hola" = true ∧
    toolMsgsAtCheck oRec "hola" ≠ [] :=
  check_gates_recommend oRec "hola" (by decide)
